import Mathlib

/-!
Shallow embedding of the cleaning pipeline of `src/cleaner.py`
(class `ShelterDataCleaner`) from the animal-shelter-dashboard repository.

Representation choices:
* A pandas `DataFrame` is embedded as a `Table`: a list of `Row`s plus one
  presence flag per column that the pipeline reads or writes conditionally
  (`if col in self.df.columns`).  A `Row` carries typed cells; a missing
  cell (pandas `NaN` / `NA` / `NaT`) is `Option.none`.
* Only the columns that the verified stages read or write are embedded
  (`animal_name`, `animal_type`, `sex`, `outcome_type`, `outcome_is_current`,
  `dob`, `intake_date`, `intake_duration` and the five derived columns).
  The remaining stages of `finalize` (`fix_intake_is_dead`,
  `fix_was_outcome_alive`, the fills of `secondary_color` etc.) touch only
  columns outside this set and act as the identity on the embedded fields.
* Date cells are embedded as their parsed value: an `Option Int` day number
  in the proleptic Gregorian calendar (`pd.to_datetime(..., errors="coerce")`
  maps each cell independently to a date or `NaT`, so `parse_dates` is the
  identity on this representation).
* Float arithmetic (`.dt.days / 365.25`) is embedded exactly over `Rat`;
  365.25 = 1461/4 is exact in binary floating point and the integer day
  counts involved keep the quotient far from the bucket thresholds, so the
  rational model decides every comparison the float code decides.
-/

namespace AnimalShelter

/-- Python `str.strip` on a character list: drop whitespace on both ends. -/
def trim_chars (cs : List Char) : List Char :=
  ((cs.dropWhile Char.isWhitespace).reverse.dropWhile Char.isWhitespace).reverse

/-- The regex rewrite of whitespace runs to a single space
used by `normalize_text_columns`. -/
def collapse_ws : List Char → List Char
  | [] => []
  | [c] => if c.isWhitespace then [' '] else [c]
  | c :: d :: cs =>
    if c.isWhitespace && d.isWhitespace then collapse_ws (d :: cs)
    else (if c.isWhitespace then ' ' else c) :: collapse_ws (d :: cs)

/-- Upper-casing of a string, character by character (`str.upper`). -/
def upper_string (s : String) : String :=
  ⟨s.data.map Char.toUpper⟩

/-- The cell transform of `normalize_text_columns`:
strip, collapse internal whitespace runs to one space, upper-case.
A missing cell stays missing (`astype("string")` keeps `NA`). -/
def normalize_cell (s : String) : String :=
  ⟨(collapse_ws (trim_chars s.data)).map Char.toUpper⟩

/-- One embedded row of the shelter table.  Raw cells are `Option`-valued
(`none` = pandas missing value); the five derived cells are filled in by the
pipeline and carry arbitrary content before their column exists (the
corresponding `Table` flag is then `false`). -/
structure Row where
  animal_name : Option String
  animal_type : Option String
  sex : Option String
  outcome_type : Option String
  outcome_is_current : Option Bool
  dob : Option Int
  intake_date : Option Int
  intake_duration : Option Rat
  age_at_intake_years : Option Rat
  age_group : String
  sex_base : String
  is_sterilized : Option Bool
  outcome_group : String
  deriving DecidableEq, Repr

/-- An embedded DataFrame: rows plus one presence flag per embedded column. -/
structure Table where
  rows : List Row
  has_animal_name : Bool
  has_animal_type : Bool
  has_sex : Bool
  has_outcome_type : Bool
  has_outcome_is_current : Bool
  has_dob : Bool
  has_intake_date : Bool
  has_intake_duration : Bool
  has_age_at_intake_years : Bool
  has_age_group : Bool
  has_sex_base : Bool
  has_is_sterilized : Bool
  has_outcome_group : Bool
  deriving DecidableEq, Repr

/-- `clean_column_names` rewrites column labels to snake_case.  The embedding
addresses columns by canonical snake_case field names already, so the stage is
the identity on this representation. -/
def clean_column_names (t : Table) : Table := t

/-- `parse_dates` maps each raw date cell independently to a date or `NaT`
(`errors="coerce"`); date cells are embedded post-parse, so the stage is the
identity on this representation. -/
def parse_dates (t : Table) : Table := t

/-- `fill_missing_values` restricted to the embedded columns: of the seven
columns it fills, only `animal_name` is embedded; missing values become the
literal string Unknown when the column is present. -/
def fill_missing_values (t : Table) : Table :=
  if t.has_animal_name then
    { t with rows := t.rows.map fun r =>
        { r with animal_name := some (r.animal_name.getD "Unknown") } }
  else t

/-- `normalize_text_columns` restricted to the embedded columns:
`animal_type`, `sex` and `outcome_type` are in its column list; each present
column is stripped, whitespace-collapsed and upper-cased cell-wise (missing
cells stay missing).  The `intake_condition` typo fix touches a column outside
the embedding. -/
def normalize_text_columns (t : Table) : Table :=
  let t1 :=
    if t.has_animal_type then
      { t with rows := t.rows.map fun r =>
          { r with animal_type := r.animal_type.map normalize_cell } }
    else t
  let t2 :=
    if t1.has_sex then
      { t1 with rows := t1.rows.map fun r =>
          { r with sex := r.sex.map normalize_cell } }
    else t1
  if t2.has_outcome_type then
    { t2 with rows := t2.rows.map fun r =>
        { r with outcome_type := r.outcome_type.map normalize_cell } }
  else t2

/-- The age a row gets in `create_age_features`:
`(intake_date - dob).dt.days / 365.25`, `none` when either date is `NaT`. -/
def age_of (r : Row) : Option Rat :=
  match r.intake_date, r.dob with
  | some i, some d => some (((i - d : Int) : Rat) / (1461 / 4 : Rat))
  | _, _ => none

/-- The nested `age_group` bucketing function of `create_age_features`:
a first-match if/elif chain. -/
def age_group_of : Option Rat → String
  | none => "Unknown"
  | some a =>
    if a < 1 then "Baby"
    else if a < 3 then "Young"
    else if a < 8 then "Adult"
    else "Senior"

/-- The per-row effect of `create_age_features`. -/
def age_row (r : Row) : Row :=
  { r with age_at_intake_years := age_of r
         , age_group := age_group_of (age_of r) }

/-- `create_age_features`.  The source reads `self.df["intake_date"]` and then
`self.df["dob"]` with no column guard, so a missing column raises a `KeyError`
(embedded as `Except.error`); every other stage guards its columns. -/
def create_age_features (t : Table) : Except String Table :=
  if t.has_intake_date = false then Except.error "KeyError: intake_date"
  else if t.has_dob = false then Except.error "KeyError: dob"
  else Except.ok
    { t with rows := t.rows.map age_row
           , has_age_at_intake_years := true
           , has_age_group := true }

/-- The cell-level mapping of `create_sex_features` for a present `sex`
column: upper-case, `replace` NEUTERED/SPAYED by Male/Female, keep the result
`where` the upper-cased raw value is one of the five known tokens and write
Unknown elsewhere; the sterilization tri-state comes from the two `mask`
calls.  Returns (sex_base, is_sterilized). -/
def sex_features_of (sex : Option String) : String × Option Bool :=
  match sex.map upper_string with
  | none => ("Unknown", none)
  | some s =>
    let base :=
      if s = "NEUTERED" then "Male"
      else if s = "SPAYED" then "Female"
      else if s = "MALE" ∨ s = "FEMALE" ∨ s = "UNKNOWN" then s
      else "Unknown"
    let ster : Option Bool :=
      if s = "NEUTERED" ∨ s = "SPAYED" then some true
      else if s = "MALE" ∨ s = "FEMALE" then some false
      else none
    (base, ster)

/-- Per-row effect of `create_sex_features` when the `sex` column exists. -/
def sex_row (r : Row) : Row :=
  { r with sex_base := (sex_features_of r.sex).1
         , is_sterilized := (sex_features_of r.sex).2 }

/-- Per-row effect of `create_sex_features` when `sex` is absent. -/
def sex_row_missing (r : Row) : Row :=
  { r with sex_base := "Unknown", is_sterilized := none }

/-- `create_sex_features`. -/
def create_sex_features (t : Table) : Table :=
  if t.has_sex then
    { t with rows := t.rows.map sex_row
           , has_sex_base := true, has_is_sterilized := true }
  else
    { t with rows := t.rows.map sex_row_missing
           , has_sex_base := true, has_is_sterilized := true }

/-- The positive outcome vocabulary of `create_outcome_group`. -/
def positive_outcomes : List String :=
  ["ADOPTION", "RETURN TO OWNER", "COMMUNITY CAT",
   "RETURN TO WILD HABITAT", "HOMEFIRST", "FOSTER TO ADOPT"]

/-- The negative outcome vocabulary. -/
def negative_outcomes : List String :=
  ["EUTHANASIA", "DIED", "DISPOSAL"]

/-- The transfer/partner outcome vocabulary. -/
def partner_outcomes : List String :=
  ["TRANSFER", "RESCUE", "TRANSPORT", "SHELTER, NEUTER, RETURN"]

/-- The administrative outcome vocabulary. -/
def admin_outcomes : List String :=
  ["MISSING", "DUPLICATE"]

/-- `Series.isin` on an optional cell: a missing value is in no set. -/
def cell_isin (ot : Option String) (l : List String) : Bool :=
  match ot with
  | some v => l.contains v
  | none => false

/-- The per-row classification of `create_outcome_group`: the series starts as
ADMIN_OR_UNKNOWN and the five `mask` calls overwrite it in source order, a
later mask overriding an earlier one where both fire. -/
def outcome_group_of (current : Bool) (ot : Option String) : String :=
  let g := "ADMIN_OR_UNKNOWN"
  let g := if current || ot.isNone then "No_Outcome_Yet" else g
  let g := if cell_isin ot positive_outcomes then "Positive" else g
  let g := if cell_isin ot negative_outcomes then "Negative" else g
  let g := if cell_isin ot partner_outcomes then "Other_or_Partner" else g
  if cell_isin ot admin_outcomes then "Admin_or_Unknown" else g

/-- Per-row effect of `create_outcome_group`: a missing `outcome_is_current`
column makes the current mask all-false, a missing `outcome_type` column is
read as an all-`NA` series. -/
def outcome_row (has_cur has_ot : Bool) (r : Row) : Row :=
  let cur : Bool := has_cur && decide (r.outcome_is_current = some true)
  let ot : Option String := if has_ot then r.outcome_type else none
  { r with outcome_group := outcome_group_of cur ot }

/-- `create_outcome_group`. -/
def create_outcome_group (t : Table) : Table :=
  { t with rows := t.rows.map (outcome_row t.has_outcome_is_current t.has_outcome_type)
         , has_outcome_group := true }

/-- The boolean mask `(age < 0) | (age > 40)` of `validate_fields`: a `NaN`
age compares false on both sides and is not flagged. -/
def age_out_of_range : Option Rat → Bool
  | some a => decide (a < 0 ∨ 40 < a)
  | none => false

/-- The boolean mask `intake_duration < 0` of `validate_fields`: a `NaN`
duration compares false and is not flagged. -/
def duration_negative : Option Rat → Bool
  | some q => decide (q < 0)
  | none => false

/-- The age clamp of `validate_fields`: an age outside [0, 40] becomes `NaN`
and the row's `age_group` is forced to Unknown. -/
def clip_age_row (r : Row) : Row :=
  if age_out_of_range r.age_at_intake_years then
    { r with age_at_intake_years := none, age_group := "Unknown" }
  else r

/-- The duration clamp of `validate_fields`: a negative `intake_duration`
becomes `NaN`. -/
def clip_duration_row (r : Row) : Row :=
  if duration_negative r.intake_duration then { r with intake_duration := none }
  else r

/-- `validate_fields`: each clamp runs only when its column exists. -/
def validate_fields (t : Table) : Table :=
  let t1 :=
    if t.has_age_at_intake_years then { t with rows := t.rows.map clip_age_row }
    else t
  if t1.has_intake_duration then { t1 with rows := t1.rows.map clip_duration_row }
  else t1

/-- `finalize`: the stage order of the source.  `fix_intake_is_dead` and
`fix_was_outcome_alive` touch only columns outside the embedding and are
identities here. -/
def finalize (t : Table) : Except String Table :=
  let t1 := clean_column_names t
  let t2 := parse_dates t1
  let t3 := fill_missing_values t2
  let t4 := normalize_text_columns t3
  match create_age_features t4 with
  | Except.error e => Except.error e
  | Except.ok t5 =>
    let t6 := create_sex_features t5
    let t7 := create_outcome_group t6
    Except.ok (validate_fields t7)

/-- The heap view of a `ShelterDataCleaner` run: the DataFrame object the
caller passed to `__init__` and the private copy `self.df = df.copy()`. -/
structure CleanerState where
  caller_df : Table
  self_df : Table
  deriving DecidableEq, Repr

/-- `ShelterDataCleaner.__init__`: `self.df` starts as an independent snapshot
of the argument (`df.copy()`). -/
def cleaner_init (df : Table) : CleanerState :=
  { caller_df := df, self_df := df }

/-- A pipeline stage as a method call: it rebinds `self.df` and nothing else. -/
def lift_stage (f : Table → Table) (s : CleanerState) : CleanerState :=
  { s with self_df := f s.self_df }

/-- Constructing a cleaner on `df` and calling `finalize` on it: returns the
final heap state together with the returned DataFrame (or the raised error). -/
def run_cleaner (df : Table) : CleanerState × Except String Table :=
  let s0 := cleaner_init df
  let s1 := lift_stage clean_column_names s0
  let s2 := lift_stage parse_dates s1
  let s3 := lift_stage fill_missing_values s2
  let s4 := lift_stage normalize_text_columns s3
  match create_age_features s4.self_df with
  | Except.error e => (s4, Except.error e)
  | Except.ok t5 =>
    let s5 : CleanerState := { s4 with self_df := t5 }
    let s6 := lift_stage create_sex_features s5
    let s7 := lift_stage create_outcome_group s6
    let s8 := lift_stage validate_fields s7
    (s8, Except.ok s8.self_df)

/-- Whether a year is a Gregorian leap year. -/
def is_leap_year (y : Nat) : Bool :=
  (y % 4 = 0 && y % 100 ≠ 0) || y % 400 = 0

/-- Cumulative day count of the months preceding month `m` in a common year. -/
def days_before_month : Nat → Nat
  | 1 => 0 | 2 => 31 | 3 => 59 | 4 => 90 | 5 => 120 | 6 => 151
  | 7 => 181 | 8 => 212 | 9 => 243 | 10 => 273 | 11 => 304 | 12 => 334
  | _ => 0

/-- Proleptic Gregorian day number of a calendar date, counting day 0 as
0001-01-01; differences of day numbers are the `.dt.days` of the pandas
timestamp difference. -/
def to_day_number (y m d : Nat) : Int :=
  let leap_add : Nat := if 2 < m ∧ is_leap_year y then 1 else 0
  ((365 * (y - 1) + (y - 1) / 4 - (y - 1) / 100 + (y - 1) / 400
      + days_before_month m + leap_add + (d - 1) : Nat) : Int)

/-- A row with every embedded cell missing and the derived cells blank. -/
def blank_row : Row :=
  { animal_name := none, animal_type := none, sex := none, outcome_type := none
  , outcome_is_current := none, dob := none, intake_date := none
  , intake_duration := none, age_at_intake_years := none, age_group := ""
  , sex_base := "", is_sterilized := none, outcome_group := "" }

/-- A raw table: the derived columns do not exist yet. -/
def mk_table (rows : List Row) (hdob hintake hsex hot hcur hdur : Bool) : Table :=
  { rows := rows
  , has_animal_name := false, has_animal_type := false
  , has_sex := hsex, has_outcome_type := hot, has_outcome_is_current := hcur
  , has_dob := hdob, has_intake_date := hintake, has_intake_duration := hdur
  , has_age_at_intake_years := false, has_age_group := false
  , has_sex_base := false, has_is_sterilized := false
  , has_outcome_group := false }

/-- The five outcome labels of the specification. -/
def five_groups : List String :=
  ["Positive", "Negative", "Other_or_Partner", "Admin_or_Unknown", "No_Outcome_Yet"]

/-- The three `sex_base` values of the specification. -/
def spec_sex_values : List String := ["Male", "Female", "Unknown"]

/-- The `sex_base` values the source can actually produce. -/
def sex_base_values : List String :=
  ["Male", "Female", "MALE", "FEMALE", "UNKNOWN", "Unknown"]

/-- The five age buckets. -/
def age_group_values : List String :=
  ["Baby", "Young", "Adult", "Senior", "Unknown"]

/-- A row born 2020-01-01 and taken in 2021-06-01 (the spec scenario). -/
def scenario_row : Row :=
  { blank_row with dob := some (to_day_number 2020 1 1)
                 , intake_date := some (to_day_number 2021 6 1) }

/-- A raw table holding only the scenario row. -/
def scenario_table : Table := mk_table [scenario_row] true true false false false false

/-- An empty raw table, used as a default. -/
def fallback_table : Table := mk_table [] false false false false false false

/-- The pipeline output on the scenario table. -/
def scenario_clean : Table := ((finalize scenario_table).toOption).getD fallback_table

/-- The single cleaned scenario row. -/
def scenario_out_row : Row := scenario_clean.rows.getD 0 blank_row

/-- A row with a current outcome flag and outcome type Adoption. -/
def adoption_current_row : Row :=
  { blank_row with outcome_type := some "Adoption", outcome_is_current := some true }

/-- A raw table holding only the adoption-while-current row. -/
def adoption_current_table : Table :=
  mk_table [adoption_current_row] true true false true true false

/-- A row whose outcome type is outside every classification vocabulary. -/
def stolen_row : Row :=
  { blank_row with outcome_type := some "Stolen", outcome_is_current := some false }

/-- A raw table holding only the unrecognized-outcome row. -/
def stolen_table : Table := mk_table [stolen_row] true true false true true false

/-- A raw table whose `dob` column is entirely absent. -/
def missing_dob_table : Table := mk_table [blank_row] false true false false false false

/-- A row with raw sex Male. -/
def male_row : Row := { blank_row with sex := some "Male" }

/-- A raw table holding only the male row. -/
def male_table : Table := mk_table [male_row] true true true false false false

/-- A raw table with neither `outcome_type` nor `outcome_is_current` columns;
its single row even carries a stale current flag in the embedded cell. -/
def missing_outcome_table : Table :=
  mk_table [{ blank_row with outcome_is_current := some true }] true true false false false false

/-- A row whose derived age is out of range and whose duration is negative. -/
def invalid_age_row : Row :=
  { blank_row with age_at_intake_years := some 45, age_group := "Senior"
                 , intake_duration := some (-2) }

/-- A table entering validation with age and duration columns present. -/
def invalid_age_table : Table :=
  { mk_table [invalid_age_row] true true false false false true with
      has_age_at_intake_years := true, has_age_group := true }

/-- The frame of `validate_fields` on one row: every field other than the age,
age-group and duration cells is untouched; the age cell changes only by being
nulled when out of [0, 40], forcing the bucket to Unknown, and the duration
cell changes only by being nulled when negative. -/
def frame_rel (r r' : Row) : Prop :=
  r'.animal_name = r.animal_name ∧ r'.animal_type = r.animal_type ∧
  r'.sex = r.sex ∧ r'.outcome_type = r.outcome_type ∧
  r'.outcome_is_current = r.outcome_is_current ∧ r'.dob = r.dob ∧
  r'.intake_date = r.intake_date ∧ r'.sex_base = r.sex_base ∧
  r'.is_sterilized = r.is_sterilized ∧ r'.outcome_group = r.outcome_group ∧
  (r'.age_at_intake_years = r.age_at_intake_years ∨
    (r'.age_at_intake_years = none ∧ r'.age_group = "Unknown" ∧
      ∃ a : Rat, r.age_at_intake_years = some a ∧ (a < 0 ∨ 40 < a))) ∧
  (r'.age_group = r.age_group ∨
    (r'.age_group = "Unknown" ∧ r'.age_at_intake_years = none ∧
      ∃ a : Rat, r.age_at_intake_years = some a ∧ (a < 0 ∨ 40 < a))) ∧
  (r'.intake_duration = r.intake_duration ∨
    (r'.intake_duration = none ∧ ∃ q : Rat, r.intake_duration = some q ∧ q < 0))

/-- A row whose age bucket agrees with its age cell under the bucketing
function; this invariant is established by `create_age_features` and survives
every later stage. -/
def age_consistent (r : Row) : Prop :=
  r.age_group = age_group_of r.age_at_intake_years

/-- The row `create_outcome_group` produces on the table with no outcome
columns. -/
def missing_outcome_out_row : Row :=
  (create_outcome_group missing_outcome_table).rows.getD 0 blank_row

/-- The row `create_sex_features` produces on the raw-Male table. -/
def male_sex_out_row : Row :=
  (create_sex_features male_table).rows.getD 0 blank_row

/-- C1 counterexample: on a row with `outcome_is_current = true` and raw
outcome type Adoption, the full pipeline classifies the row Positive, not
No_Outcome_Yet — the later Positive mask overrides the earlier current/null
mask, so classification is not the first-match priority chain of the claim. -/
theorem C1_counterexample :
    (finalize adoption_current_table).toOption.map (fun t => t.rows.map Row.outcome_group)
        = some ["Positive"]
      ∧ (("Positive" : String) == "No_Outcome_Yet") = false :=
  ⟨rfl, by decide⟩

/-- C1 (amended): the five classification rules are applied as sequential
overwrite masks, so the chain is a last-match priority chain: the admin set
wins over the partner set, over the negative set, over the positive set, over
the current-or-null rule, whose match falls through to the ADMIN_OR_UNKNOWN
default; in particular a row with a current outcome flag is classified
No_Outcome_Yet only when its outcome type is null or in none of the four
vocabularies. -/
theorem C1_last_match_chain (current : Bool) (ot : Option String) :
    outcome_group_of current ot =
      (if cell_isin ot admin_outcomes then "Admin_or_Unknown"
       else if cell_isin ot partner_outcomes then "Other_or_Partner"
       else if cell_isin ot negative_outcomes then "Negative"
       else if cell_isin ot positive_outcomes then "Positive"
       else if current || ot.isNone then "No_Outcome_Yet"
       else "ADMIN_OR_UNKNOWN") := by
  unfold outcome_group_of
  by_cases h1 : cell_isin ot admin_outcomes <;>
    by_cases h2 : cell_isin ot partner_outcomes <;>
      by_cases h3 : cell_isin ot negative_outcomes <;>
        by_cases h4 : cell_isin ot positive_outcomes <;>
          by_cases h5 : (current || ot.isNone) = true <;>
            simp [h1, h2, h3, h4, h5]

/-- C2: a row whose normalized outcome type is in no vocabulary (here raw
Stolen) keeps the initialization value ADMIN_OR_UNKNOWN, an all-caps sixth
label distinct from the five labels (the admin mask writes the differently
cased Admin_or_Unknown), so the five-label invariant fails on the code. -/
theorem C2_code_bug :
    (finalize stolen_table).toOption.map (fun t => t.rows.map Row.outcome_group)
        = some ["ADMIN_OR_UNKNOWN"]
      ∧ five_groups.contains "ADMIN_OR_UNKNOWN" = false :=
  ⟨rfl, by decide⟩

/-- C3: `create_age_features` subtracts the date columns without any presence
guard, so a table whose `dob` column is entirely absent makes the pipeline
raise a KeyError instead of completing with null ages — contradicting the
spec, which reserves errors for a missing source file. -/
theorem C3_code_bug :
    finalize missing_dob_table = Except.error "KeyError: dob" := rfl

/-- C8: the cleaner operates only on its private copy made in `__init__`, so
after the full pipeline the caller still holds the untouched raw table, and
the returned snapshot is exactly the `finalize` transform of the input. -/
theorem C8_no_mutation (df : Table) :
    ((run_cleaner df).1).caller_df = df ∧ (run_cleaner df).2 = finalize df := by
  rcases hE : create_age_features (normalize_text_columns (fill_missing_values
      (parse_dates (clean_column_names df)))) with e | t5 <;>
    simp [run_cleaner, finalize, lift_stage, cleaner_init, hE]

/-- C9: the pipeline is deterministic — any two successful runs of `finalize`
on the same table return the same output table. -/
theorem C9_deterministic (t t₁ t₂ : Table)
    (h₁ : finalize t = Except.ok t₁) (h₂ : finalize t = Except.ok t₂) :
    t₁ = t₂ := by
  rw [h₁] at h₂
  exact Except.ok.inj h₂

/-- C9 witness: the scenario table runs successfully, so the hypotheses of the
determinism theorem are satisfiable at a concrete input. -/
theorem C9_witness :
    finalize scenario_table = Except.ok scenario_clean ∧ scenario_clean = scenario_clean :=
  ⟨rfl, C9_deterministic scenario_table scenario_clean scenario_clean rfl rfl⟩

/-- C10: outcome grouping never fails on a missing column: with no
`outcome_type` column every row is read as null outcome type and classified
No_Outcome_Yet (whatever its current flag), and with no `outcome_is_current`
column every row is classified with the current mask read as false. -/
theorem C10_missing_columns :
    (∀ t : Table, t.has_outcome_type = false →
      ∀ r ∈ (create_outcome_group t).rows, r.outcome_group = "No_Outcome_Yet") ∧
    (∀ t : Table, t.has_outcome_is_current = false →
      (create_outcome_group t).rows = t.rows.map (outcome_row false t.has_outcome_type)) := by
  constructor
  · intro t ht r hr
    simp only [create_outcome_group] at hr
    obtain ⟨r0, _, rfl⟩ := List.mem_map.mp hr
    simp [outcome_row, outcome_group_of, cell_isin, ht]
  · intro t ht
    simp [create_outcome_group, ht]

/-- C10 witness: on the concrete table with both outcome columns absent the
single row (whose stale embedded cell even says current) is classified
No_Outcome_Yet. -/
theorem C10_witness : missing_outcome_out_row.outcome_group = "No_Outcome_Yet" :=
  C10_missing_columns.1 missing_outcome_table rfl missing_outcome_out_row (by decide)

/-- C4 counterexample: a raw sex cell Male passes through the upper-casing
normalizer, so the pipeline emits `sex_base` MALE — not one of the three
title-case values Male, Female, Unknown claimed by the spec. -/
theorem C4_counterexample :
    (finalize male_table).toOption.map
        (fun t => t.rows.map fun r => (r.sex_base, r.is_sterilized))
        = some [("MALE", some false)]
      ∧ spec_sex_values.contains "MALE" = false :=
  ⟨rfl, by decide⟩

/-- Case analysis of the cell-level sex mapping: the base value ranges over
the six producible strings, the tri-state is null exactly on the two spellings
of unknown, true exactly on neutered or spayed raws, false exactly on male or
female raws, and the two title-case outputs come exactly from the two
sterilized raws. -/
theorem sex_features_spec (sx : Option String) :
    (sex_features_of sx).1 ∈ sex_base_values ∧
    ((sex_features_of sx).2 = none ↔
      ((sex_features_of sx).1 = "UNKNOWN" ∨ (sex_features_of sx).1 = "Unknown")) ∧
    ((sex_features_of sx).2 = some true ↔
      (sx.map upper_string = some "NEUTERED" ∨ sx.map upper_string = some "SPAYED")) ∧
    ((sex_features_of sx).2 = some false ↔
      (sx.map upper_string = some "MALE" ∨ sx.map upper_string = some "FEMALE")) ∧
    ((sex_features_of sx).1 = "Male" ↔ sx.map upper_string = some "NEUTERED") ∧
    ((sex_features_of sx).1 = "Female" ↔ sx.map upper_string = some "SPAYED") := by
  cases sx with
  | none => decide
  | some s =>
    by_cases h1 : upper_string s = "NEUTERED" <;>
      by_cases h2 : upper_string s = "SPAYED" <;>
        by_cases h3 : upper_string s = "MALE" <;>
          by_cases h4 : upper_string s = "FEMALE" <;>
            by_cases h5 : upper_string s = "UNKNOWN" <;>
              simp_all [sex_features_of, sex_base_values]

/-- C4 (amended): after `create_sex_features`, every row's `sex_base` is one
of the six strings Male, Female, MALE, FEMALE, UNKNOWN, Unknown (neutered maps
to Male, spayed to Female, the upper-cased raws MALE/FEMALE/UNKNOWN pass
through unchanged, anything else becomes Unknown), and `is_sterilized` is null
iff `sex_base` is either spelling of unknown, true iff the raw sex upper-cases
to NEUTERED or SPAYED, and false iff it upper-cases to MALE or FEMALE. -/
theorem C4_amended (t : Table) :
    ∀ r ∈ (create_sex_features t).rows,
      r.sex_base ∈ sex_base_values ∧
      (r.is_sterilized = none ↔ (r.sex_base = "UNKNOWN" ∨ r.sex_base = "Unknown")) ∧
      (r.is_sterilized = some true ↔
        (t.has_sex = true ∧
          (r.sex.map upper_string = some "NEUTERED" ∨ r.sex.map upper_string = some "SPAYED"))) ∧
      (r.is_sterilized = some false ↔
        (t.has_sex = true ∧
          (r.sex.map upper_string = some "MALE" ∨ r.sex.map upper_string = some "FEMALE"))) := by
  intro r hr
  by_cases hs : t.has_sex = true
  · simp only [create_sex_features, if_pos hs] at hr
    obtain ⟨r0, _, rfl⟩ := List.mem_map.mp hr
    have h := sex_features_spec r0.sex
    exact ⟨h.1, h.2.1,
      by simpa [hs, sex_row] using h.2.2.1,
      by simpa [hs, sex_row] using h.2.2.2.1⟩
  · have hs' : t.has_sex = false := by simpa using hs
    simp only [create_sex_features, hs', if_false, Bool.false_eq_true] at hr
    obtain ⟨r0, _, rfl⟩ := List.mem_map.mp hr
    refine ⟨?_, ?_, ?_, ?_⟩ <;> simp [sex_row_missing, sex_base_values, hs']

/-- C4 witness: the amended invariant instantiated on the output row of the
concrete raw-Male table. -/
theorem C4_amended_witness : male_sex_out_row.sex_base ∈ sex_base_values :=
  (C4_amended male_table male_sex_out_row (by decide)).1

/-- First-match reading of the bucketing chain: the buckets are mutually
exclusive and characterize the age exactly (null gives Unknown, and the four
named buckets partition the real ages at their thresholds). -/
theorem age_group_chain (a : Rat) :
    age_group_of none = "Unknown" ∧
    age_group_of (some a) ∈ ["Baby", "Young", "Adult", "Senior"] ∧
    (age_group_of (some a) = "Baby" ↔ a < 1) ∧
    (age_group_of (some a) = "Young" ↔ 1 ≤ a ∧ a < 3) ∧
    (age_group_of (some a) = "Adult" ↔ 3 ≤ a ∧ a < 8) ∧
    (age_group_of (some a) = "Senior" ↔ 8 ≤ a) := by
  refine ⟨rfl, ?_, ?_, ?_, ?_, ?_⟩ <;> simp only [age_group_of] <;> split_ifs with h1 h2 h3
  · decide
  · decide
  · decide
  · decide
  · simp [h1]
  · exact iff_of_false (by decide) (by intro h; linarith)
  · exact iff_of_false (by decide) (by intro h; linarith)
  · exact iff_of_false (by decide) (by intro h; linarith)
  · exact iff_of_false (by decide) (by rintro ⟨h, _⟩; linarith)
  · exact iff_of_true rfl ⟨le_of_not_lt h1, h2⟩
  · exact iff_of_false (by decide) (by rintro ⟨_, h⟩; exact h2 h)
  · exact iff_of_false (by decide) (by rintro ⟨_, h⟩; exact h2 h)
  · exact iff_of_false (by decide) (by rintro ⟨h, _⟩; linarith)
  · exact iff_of_false (by decide) (by rintro ⟨h, _⟩; linarith)
  · exact iff_of_true rfl ⟨le_of_not_lt h2, h3⟩
  · exact iff_of_false (by decide) (by rintro ⟨_, h⟩; exact h3 h)
  · exact iff_of_false (by decide) (by intro h; linarith)
  · exact iff_of_false (by decide) (by intro h; linarith)
  · exact iff_of_false (by decide) (by intro h; linarith)
  · exact iff_of_true rfl (le_of_not_lt h3)

/-- C5: the age bucketing is the stated first-match chain over
`days / 365.25`, and the concrete scenario dob 2020-01-01, intake 2021-06-01
spans 517 days, giving age 2068/1461 (about 1.4155, within [1.41, 1.42)) and
bucket Young through the full pipeline. -/
theorem C5_age_bucketing :
    (∀ a : Rat,
      age_group_of none = "Unknown" ∧
      age_group_of (some a) ∈ ["Baby", "Young", "Adult", "Senior"] ∧
      (age_group_of (some a) = "Baby" ↔ a < 1) ∧
      (age_group_of (some a) = "Young" ↔ 1 ≤ a ∧ a < 3) ∧
      (age_group_of (some a) = "Adult" ↔ 3 ≤ a ∧ a < 8) ∧
      (age_group_of (some a) = "Senior" ↔ 8 ≤ a)) ∧
    to_day_number 2021 6 1 - to_day_number 2020 1 1 = 517 ∧
    (finalize scenario_table).toOption.map
        (fun t => t.rows.map fun r => (r.age_at_intake_years, r.age_group))
        = some [(some ((2068 : Rat) / 1461), "Young")] ∧
    ((141 : Rat) / 100 ≤ (2068 : Rat) / 1461 ∧ (2068 : Rat) / 1461 < (142 : Rat) / 100) :=
  ⟨age_group_chain, by decide, by with_unfolding_all rfl, by with_unfolding_all decide⟩

/-- Mapping a function over a list relates each element to its image. -/
theorem forall₂_map_of {R : Row → Row → Prop} (f : Row → Row)
    (h : ∀ r, R r (f r)) (l : List Row) : List.Forall₂ R l (l.map f) := by
  induction l with
  | nil => exact List.Forall₂.nil
  | cons r l ih => exact List.Forall₂.cons (h r) ih

/-- The validation frame relation is reflexive. -/
theorem frame_rel_refl (r : Row) : frame_rel r r :=
  ⟨rfl, rfl, rfl, rfl, rfl, rfl, rfl, rfl, rfl, rfl, Or.inl rfl, Or.inl rfl, Or.inl rfl⟩

/-- The age mask flags exactly the out-of-range present ages. -/
theorem age_out_of_range_spec (x : Option Rat) :
    age_out_of_range x = true ↔ ∃ a : Rat, x = some a ∧ (a < 0 ∨ 40 < a) := by
  cases x <;> simp [age_out_of_range]

/-- The duration mask flags exactly the negative present durations. -/
theorem duration_negative_spec (x : Option Rat) :
    duration_negative x = true ↔ ∃ q : Rat, x = some q ∧ q < 0 := by
  cases x <;> simp [duration_negative]

/-- The age clamp respects the validation frame. -/
theorem frame_rel_clip_age (r : Row) : frame_rel r (clip_age_row r) := by
  unfold clip_age_row
  split
  · next hb =>
    obtain ⟨a, hA, hout⟩ := (age_out_of_range_spec _).mp hb
    exact ⟨rfl, rfl, rfl, rfl, rfl, rfl, rfl, rfl, rfl, rfl,
      Or.inr ⟨rfl, rfl, a, hA, hout⟩, Or.inr ⟨rfl, rfl, a, hA, hout⟩, Or.inl rfl⟩
  · exact frame_rel_refl r

/-- The duration clamp does not touch the age cell. -/
theorem clip_duration_row_age (r : Row) :
    (clip_duration_row r).age_at_intake_years = r.age_at_intake_years := by
  unfold clip_duration_row
  split <;> rfl

/-- The duration clamp does not touch the age bucket. -/
theorem clip_duration_row_group (r : Row) :
    (clip_duration_row r).age_group = r.age_group := by
  unfold clip_duration_row
  split <;> rfl

/-- The age clamp does not touch the duration cell. -/
theorem clip_age_row_duration (r : Row) :
    (clip_age_row r).intake_duration = r.intake_duration := by
  unfold clip_age_row
  split <;> rfl

/-- Applying both clamps in pipeline order respects the validation frame. -/
theorem frame_rel_clip_both (r : Row) :
    frame_rel r (clip_duration_row (clip_age_row r)) := by
  have h1 := frame_rel_clip_age r
  unfold clip_duration_row
  split
  · next hq =>
    rw [clip_age_row_duration] at hq
    obtain ⟨q, hD, hneg⟩ := (duration_negative_spec _).mp hq
    obtain ⟨e1, e2, e3, e4, e5, e6, e7, e8, e9, e10, d1, d2, _⟩ := h1
    exact ⟨e1, e2, e3, e4, e5, e6, e7, e8, e9, e10, d1, d2, Or.inr ⟨rfl, q, hD, hneg⟩⟩
  · exact h1

/-- Ages surviving the age clamp are within bounds. -/
theorem clip_age_row_bound (r : Row) (a : Rat)
    (h : (clip_age_row r).age_at_intake_years = some a) : 0 ≤ a ∧ a ≤ 40 := by
  unfold clip_age_row at h
  split at h
  · simp at h
  · next hb =>
    rw [h] at hb
    simp [age_out_of_range] at hb
    exact ⟨hb.1, hb.2⟩

/-- Durations surviving the duration clamp are nonnegative. -/
theorem clip_duration_row_bound (r : Row) (q : Rat)
    (h : (clip_duration_row r).intake_duration = some q) : 0 ≤ q := by
  unfold clip_duration_row at h
  split at h
  · simp at h
  · next hp =>
    rw [h] at hp
    simp [duration_negative] at hp
    exact hp

/-- C6: when the age and duration columns are present, validation keeps the
row count, leaves every surviving age in [0, 40] and every surviving duration
nonnegative, and relates each input row to its output row by the frame
relation: all other fields are untouched, the age cell changes only by being
nulled when out of range (its bucket then forced to Unknown), and the
duration cell changes only by being nulled when negative. -/
theorem C6_validation (t : Table)
    (hA : t.has_age_at_intake_years = true) (hD : t.has_intake_duration = true) :
    (validate_fields t).rows.length = t.rows.length ∧
    (∀ r ∈ (validate_fields t).rows, ∀ a : Rat,
      r.age_at_intake_years = some a → 0 ≤ a ∧ a ≤ 40) ∧
    (∀ r ∈ (validate_fields t).rows, ∀ q : Rat,
      r.intake_duration = some q → 0 ≤ q) ∧
    List.Forall₂ frame_rel t.rows (validate_fields t).rows := by
  have hrows : (validate_fields t).rows = (t.rows.map clip_age_row).map clip_duration_row := by
    unfold validate_fields
    simp [hA, hD]
  refine ⟨?_, ?_, ?_, ?_⟩
  · rw [hrows]; simp
  · rw [hrows]
    intro r hr a ha
    obtain ⟨r1, hr1, rfl⟩ := List.mem_map.mp hr
    rw [clip_duration_row_age] at ha
    obtain ⟨r0, _, rfl⟩ := List.mem_map.mp hr1
    exact clip_age_row_bound r0 a ha
  · rw [hrows]
    intro r hr q hq
    obtain ⟨r1, _, rfl⟩ := List.mem_map.mp hr
    exact clip_duration_row_bound r1 q hq
  · rw [hrows, List.map_map]
    exact forall₂_map_of _ frame_rel_clip_both t.rows

/-- C6 witness: validation on the concrete table whose single row has age 45
and duration -2 keeps the row count. -/
theorem C6_witness :
    (validate_fields invalid_age_table).rows.length = invalid_age_table.rows.length :=
  (C6_validation invalid_age_table rfl rfl).1

/-- The age-feature stage establishes bucket consistency on every row. -/
theorem rows_age_consistent_age (t t' : Table)
    (h : create_age_features t = Except.ok t') :
    ∀ r ∈ t'.rows, age_consistent r := by
  unfold create_age_features at h
  split at h
  · exact absurd h (by simp)
  · split at h
    · exact absurd h (by simp)
    · obtain rfl := Except.ok.inj h
      intro r hr
      obtain ⟨r0, _, rfl⟩ := List.mem_map.mp hr
      rfl

/-- The sex-feature stage preserves bucket consistency. -/
theorem rows_age_consistent_sex (t : Table)
    (h : ∀ r ∈ t.rows, age_consistent r) :
    ∀ r ∈ (create_sex_features t).rows, age_consistent r := by
  intro r hr
  unfold create_sex_features at hr
  split at hr <;>
    · obtain ⟨r0, hr0, rfl⟩ := List.mem_map.mp hr
      exact h r0 hr0

/-- The outcome-grouping stage preserves bucket consistency. -/
theorem rows_age_consistent_outcome (t : Table)
    (h : ∀ r ∈ t.rows, age_consistent r) :
    ∀ r ∈ (create_outcome_group t).rows, age_consistent r := by
  intro r hr
  simp only [create_outcome_group] at hr
  obtain ⟨r0, hr0, rfl⟩ := List.mem_map.mp hr
  exact h r0 hr0

/-- The age clamp preserves bucket consistency: a clamped row gets a null age
together with the Unknown bucket, which is the bucket of a null age. -/
theorem age_consistent_clip_age (r : Row) (h : age_consistent r) :
    age_consistent (clip_age_row r) := by
  unfold clip_age_row
  split
  · exact rfl
  · exact h

/-- The duration clamp preserves bucket consistency. -/
theorem age_consistent_clip_dur (r : Row) (h : age_consistent r) :
    age_consistent (clip_duration_row r) := by
  unfold clip_duration_row
  split
  · exact h
  · exact h

/-- Validation preserves bucket consistency on every row. -/
theorem rows_age_consistent_validate (t : Table)
    (h : ∀ r ∈ t.rows, age_consistent r) :
    ∀ r ∈ (validate_fields t).rows, age_consistent r := by
  intro r hr
  simp only [validate_fields] at hr
  split at hr <;> split at hr <;>
    first
      | exact h r hr
      | (obtain ⟨r0, hr0, rfl⟩ := List.mem_map.mp hr
         first
           | exact age_consistent_clip_age r0 (h r0 hr0)
           | exact age_consistent_clip_dur r0 (h r0 hr0)
           | (obtain ⟨r1, hr1, rfl⟩ := List.mem_map.mp hr0
              exact age_consistent_clip_dur _ (age_consistent_clip_age r1 (h r1 hr1))))

/-- A present age always lands in one of the four named buckets. -/
theorem age_group_of_some_cases (a : Rat) :
    age_group_of (some a) = "Baby" ∨ age_group_of (some a) = "Young" ∨
    age_group_of (some a) = "Adult" ∨ age_group_of (some a) = "Senior" := by
  simp only [age_group_of]
  split_ifs <;> simp

/-- C7: on every successful pipeline run, each output row's age bucket is one
of the five labels, and it is Unknown exactly when the (validated) age cell is
null — rows nulled by the validator get Unknown, rows with a surviving age
never do. -/
theorem C7_age_group_iff (t t' : Table) (h : finalize t = Except.ok t') :
    ∀ r ∈ t'.rows,
      r.age_group ∈ age_group_values ∧
      (r.age_group = "Unknown" ↔ r.age_at_intake_years = none) := by
  have hQ : ∀ r ∈ t'.rows, age_consistent r := by
    simp only [finalize] at h
    rcases hE : create_age_features (normalize_text_columns (fill_missing_values
        (parse_dates (clean_column_names t)))) with e | t5
    · rw [hE] at h; exact absurd h (by simp)
    · rw [hE] at h
      obtain rfl := Except.ok.inj h
      exact rows_age_consistent_validate _
        (rows_age_consistent_outcome _
          (rows_age_consistent_sex _ (rows_age_consistent_age _ _ hE)))
  intro r hr
  have hc := hQ r hr
  unfold age_consistent at hc
  cases hA : r.age_at_intake_years with
  | none =>
    rw [hA] at hc
    exact ⟨by rw [hc]; decide, iff_of_true (hc.trans rfl) rfl⟩
  | some a =>
    rw [hA] at hc
    have h4 := age_group_of_some_cases a
    constructor
    · rw [hc]
      rcases h4 with h4 | h4 | h4 | h4 <;> rw [h4] <;> decide
    · rw [hc]
      refine iff_of_false ?_ (by simp)
      rcases h4 with h4 | h4 | h4 | h4 <;> rw [h4] <;> decide

/-- The head taken with a default from a nonempty list is a member. -/
theorem getD_zero_mem (l : List Row) (d : Row) (h : l ≠ []) : l.getD 0 d ∈ l := by
  cases l with
  | nil => exact absurd rfl h
  | cons a t => exact List.mem_cons_self a t

/-- C7 witness: the cleaned scenario row's bucket is one of the five labels. -/
theorem C7_witness : scenario_out_row.age_group ∈ age_group_values :=
  (C7_age_group_iff scenario_table scenario_clean rfl scenario_out_row
    (getD_zero_mem scenario_clean.rows blank_row
      (List.length_pos.mp (by with_unfolding_all decide)))).1

end AnimalShelter
